import Mathlib

/-!
Verification of the TrueScope analysis/fusion core.

This file is a shallow embedding of the analyzer module of the repository
(the Express route handlers `analyzeVoice`, `analyzeFacial`, `analyzeText`,
`computeTruthScore` and `analyzeAll`, together with the simulated feature
extractors `extractAudioFeatures` and `extractVideoFeatures`).

Modelling conventions:
* JavaScript floating-point numbers are modelled by exact rationals; every
  arithmetic expression of the source is translated operator for operator.
* `Math.round` is "round half toward positive infinity", i.e. floor of x+1/2.
* Raw media blobs (`Buffer`-like objects) are modelled by their byte length
  only, since the source reads nothing but `.length` of them; a base64 or URL
  string input is modelled as a `String`.  JS truthiness of the inputs
  (`undefined`, `null` and the empty string are falsy; every object is
  truthy) is modelled by `truthyM` / `truthyS`.
* `String.prototype.split(/\s+/)` splits on maximal whitespace runs and keeps
  the empty pieces before a leading run and after a trailing run; `jsSplit`
  reproduces exactly that.  Whitespace and lowercasing are modelled on the
  ASCII range, and `transcript.length` by the number of characters (these
  coincide with JS semantics on all ASCII inputs).
* The `sentiment` npm package (an AFINN lexicon scorer) is an external
  dependency, not code of this repository; its integer polarity output on
  the given text enters the embedding as the explicit parameter `sentScore`
  (and `posGtNeg` for its positive-vs-negative word-list comparison).  All
  claims settled here are independent of the values of these parameters.
-/

/- Batteries marks the arithmetic on `Rat` `@[irreducible]`; re-allow
unfolding so that concrete runs of the embedded code can be evaluated by
`decide` inside the kernel. -/
set_option allowUnsafeReducibility true in
attribute [semireducible] Rat.add Rat.mul Rat.sub Rat.div Rat.inv Rat.neg Rat.ofScientific

/-- JS `Math.round`: rounds half toward positive infinity. -/
def jsRound (x : ℚ) : ℤ := (x + 1/2).floor

/-- Source line 249: `Math.max(0, Math.min(100, Math.round(score)))`. -/
def clampScore (score : ℚ) : ℤ := max 0 (min 100 (jsRound score))

/-- The whitespace class of the JS regex `\s` (restricted to ASCII). -/
def isWs (c : Char) : Bool :=
  c == ' ' || c == '\t' || c == '\n' || c == '\r' || c == '\x0b' || c == '\x0c'

/-- The sentence-separator class of the JS regex `[.!?]+`. -/
def isSentenceSep (c : Char) : Bool :=
  c == '.' || c == '!' || c == '?'

/-- Worker for `jsSplit`.  `acc` is the current piece (reversed); `inSep`
records that the previous character belonged to a separator run (the piece
break has already been emitted). -/
def jsSplitAux (sep : Char → Bool) : List Char → List Char → Bool → List (List Char)
  | [], acc, inSep => if inSep then [[]] else [acc.reverse]
  | c :: rest, acc, inSep =>
    if inSep then
      if sep c then jsSplitAux sep rest acc true
      else jsSplitAux sep rest [c] false
    else
      if sep c then acc.reverse :: jsSplitAux sep rest [] true
      else jsSplitAux sep rest (c :: acc) false

/-- JS `String.prototype.split` against a `class+` regex: the pieces between
maximal separator runs, keeping an empty leading (or trailing) piece when the
text starts (or ends) with a run.  So `" a ".split(/\s+/) = ["", "a", ""]`
and `"".split(/\s+/) = [""]`; the result is never empty. -/
def jsSplit (sep : Char → Bool) (l : List Char) : List (List Char) :=
  jsSplitAux sep l [] false

/-- JS `String.prototype.toLowerCase` (ASCII range). -/
def toLowerChars (s : String) : List Char := s.toList.map Char.toLower

/-- `text.toLowerCase().split(/\s+/)` — the token list every word-list count
of the source runs over. -/
def tokensOf (s : String) : List (List Char) := jsSplit isWs (toLowerChars s)

/-- `needle` occurs at the start of `hay` (worker for `containsSub`). -/
def leadsWith : List Char → List Char → Bool
  | [], _ => true
  | _ :: _, [] => false
  | a :: as, b :: bs => a == b && leadsWith as bs

/-- JS `hay.includes(needle)`: substring containment. -/
def containsSub (needle hay : List Char) : Bool :=
  match hay with
  | [] => needle.isEmpty
  | _ :: t => leadsWith needle hay || containsSub needle t

/-- `words.filter(w => pats.some(p => w.includes(p))).length` — the
substring-containment counting used for the stress, hesitation, truth and
lie word lists. -/
def countSubstrHits (pats : List (List Char)) (ws : List (List Char)) : ℕ :=
  (ws.filter (fun w => pats.any (fun p => containsSub p w))).length

/-- `words.filter(w => pats.includes(w)).length` — the exact-membership
counting used for the contradiction, deception and confidence word lists. -/
def countExactHits (pats : List (List Char)) (ws : List (List Char)) : ℕ :=
  (ws.filter (fun w => pats.contains w)).length

/-- Source line 400. -/
def stressWordList : List (List Char) :=
  ["nervous", "anxious", "worried", "stressed", "tension", "pressure",
   "difficult", "hard", "struggle", "uncomfortable"].map String.toList

/-- Source line 401. -/
def hesitationWordList : List (List Char) :=
  ["um", "uh", "er", "ah", "like", "you know", "actually", "basically",
   "well", "so"].map String.toList

/-- Source line 561. -/
def contradictionWordList : List (List Char) :=
  ["but", "however", "although", "despite", "nevertheless", "yet",
   "on the other hand", "contrary"].map String.toList

/-- Source line 565. -/
def deceptionWordList : List (List Char) :=
  ["maybe", "perhaps", "possibly", "might", "could be", "not sure",
   "i think", "probably"].map String.toList

/-- Source line 569. -/
def confidenceWordList : List (List Char) :=
  ["definitely", "certainly", "absolutely", "surely", "without doubt",
   "clearly"].map String.toList

/-- Source line 691 (inside `computeTruthScore`). -/
def truthWordList : List (List Char) :=
  ["honestly", "truthfully", "actually", "really", "genuinely",
   "sincerely"].map String.toList

/-- Source line 692 (inside `computeTruthScore`). -/
def lieWordList : List (List Char) :=
  ["maybe", "perhaps", "possibly", "might", "could be", "not sure"].map String.toList

/-- Stress-word hits of a transcript, as counted at source line 404. -/
def stressHitCount (s : String) : ℕ := countSubstrHits stressWordList (tokensOf s)

/-- Hesitation-word hits of a transcript, as counted at source line 405. -/
def hesitationHitCount (s : String) : ℕ := countSubstrHits hesitationWordList (tokensOf s)

/-- `array.reduce((sum, w) => sum + w, 0)`. -/
def sumQ (l : List ℚ) : ℚ := l.foldl (· + ·) 0

/-- A raw media input: either a base64/URL string or a `Buffer`-like blob,
of which the source only ever reads `.length`. -/
inductive MediaData where
  | str (s : String)
  | buf (len : ℕ)

/-- JS truthiness of an optional media input: `undefined`/`null` and the
empty string are falsy, every object (any `Buffer`, even empty) is truthy. -/
def truthyM : Option MediaData → Bool
  | none => false
  | some (.str s) => !s.isEmpty
  | some (.buf _) => true

/-- JS truthiness of an optional string. -/
def truthyS : Option String → Bool
  | none => false
  | some s => !s.isEmpty

/-- JS `a || b` on two optional media inputs (first truthy operand, else the
second operand). -/
def jsOr (a b : Option MediaData) : Option MediaData :=
  if truthyM a then a else b

/-- The audio feature record of source lines 265–274 / 281–290. -/
structure AudioFeatures where
  pitch : ℚ
  volume : ℚ
  tempo : ℚ
  spectralCentroid : ℚ
  zeroCrossingRate : ℚ
  mfcc : List ℚ
  spectralRolloff : ℚ
  spectralBandwidth : ℚ

/-- Source lines 262–291.  The default branch is taken when the input is
absent (`!audioData`) **or** is a string of any length; the complexity
interpolation runs only for a non-string blob.  `audioData.length || 1000`
turns a zero-length blob into the fallback length 1000. -/
def extractAudioFeatures (audioData : Option MediaData) : AudioFeatures :=
  match audioData with
  | some (.buf len) =>
    let dataLength : ℚ := if len = 0 then 1000 else (len : ℚ)
    let complexity : ℚ := min (dataLength / 10000) 1
    { pitch := 120 + complexity * 100
      volume := 0.3 + complexity * 0.4
      tempo := 80 + complexity * 80
      spectralCentroid := 800 + complexity * 1200
      zeroCrossingRate := 0.05 + complexity * 0.1
      mfcc := List.replicate 13 (0.2 * complexity)
      spectralRolloff := 1500 + complexity * 2000
      spectralBandwidth := 300 + complexity * 400 }
  | _ =>
    { pitch := 150
      volume := 0.5
      tempo := 120
      spectralCentroid := 1000
      zeroCrossingRate := 0.1
      mfcc := List.replicate 13 0.1
      spectralRolloff := 2000
      spectralBandwidth := 500 }

/-- The video feature record of source lines 302–311 / 317–329 (the nested
`headPose` and `gazeDirection` objects are flattened into fields). -/
structure VideoFeatures where
  faceDetected : Bool
  eyeAspectRatio : ℚ
  mouthAspectRatio : ℚ
  headPosePitch : ℚ
  headPoseYaw : ℚ
  headPoseRoll : ℚ
  microExpressions : ℚ
  blinkRate : ℚ
  smileIntensity : ℚ
  gazeX : ℚ
  gazeY : ℚ

/-- Source lines 300–331, same branch structure as `extractAudioFeatures`
(with divisor 5000 for the complexity). -/
def extractVideoFeatures (videoData : Option MediaData) : VideoFeatures :=
  match videoData with
  | some (.buf len) =>
    let dataLength : ℚ := if len = 0 then 1000 else (len : ℚ)
    let complexity : ℚ := min (dataLength / 5000) 1
    { faceDetected := true
      eyeAspectRatio := 0.2 + complexity * 0.1
      mouthAspectRatio := 0.1 + complexity * 0.1
      headPosePitch := 0.1 * complexity
      headPoseYaw := 0.1 * complexity
      headPoseRoll := 0.1 * complexity
      microExpressions := complexity * 0.3
      blinkRate := 15 + complexity * 20
      smileIntensity := complexity * 0.5
      gazeX := 0.5
      gazeY := 0.5 }
  | _ =>
    { faceDetected := true
      eyeAspectRatio := 0.25
      mouthAspectRatio := 0.15
      headPosePitch := 0
      headPoseYaw := 0
      headPoseRoll := 0
      microExpressions := 0.1
      blinkRate := 20
      smileIntensity := 0.3
      gazeX := 0.5
      gazeY := 0.5 }

/-- The JSON body `analyzeVoice` responds with (source lines 417–435; the
`features` echo object is not needed by any claim and is omitted). -/
structure VoiceResult where
  emotionalScore : ℤ
  stressScore : ℤ
  confidence : ℤ
  pitchScore : ℤ
  toneScore : ℤ
  tremorScore : ℤ
  hesitationScore : ℤ
  interpretation : String

/-- The interpretation template of source line 425. -/
def voiceInterp (emotionalScore stressScore pitchScore : ℤ) : String :=
  "Voice analysis shows " ++
    (if emotionalScore > 60 then ("positive")
     else if emotionalScore < 40 then ("negative") else ("neutral")) ++
  " emotional tone with " ++
    (if stressScore > 60 then ("high")
     else if stressScore < 40 then ("low") else ("moderate")) ++
  " stress indicators. Pitch stability: " ++
    (if pitchScore > 70 then ("good") else ("needs improvement")) ++ "."

/-- Source lines 353–442.  The seven working variables start at
50/50/80/50/50/50/50; the audio-derived formulas overwrite them only when
`audioData` is truthy, and the transcript-derived averages only when
`transcript` is truthy.  `sentScore` is the external sentiment library's
polarity for the transcript (see the header). -/
def analyzeVoice (sentScore : ℤ) (audioData : Option MediaData)
    (transcript : Option String) : Except String VoiceResult :=
  if !truthyM audioData && !truthyS transcript then
    Except.error ("Audio data or transcript required")
  else
    let af := extractAudioFeatures audioData
    let pitchScore : ℤ :=
      if truthyM audioData then clampScore (min (af.pitch / 255) 1 * 100) else 50
    let toneScore : ℤ :=
      if truthyM audioData then clampScore ((1 - |af.volume - 0.5| * 2) * 100) else 50
    let tremorScore : ℤ :=
      if truthyM audioData then clampScore (100 - |af.spectralCentroid - 1000| / 1000 * 100) else 50
    let stress0 : ℤ :=
      if truthyM audioData then
        clampScore (30 + sumQ (af.mfcc.map (fun v => v * v)) / (af.mfcc.length : ℚ) * 70)
      else 50
    let emotional0 : ℤ :=
      if truthyM audioData then
        clampScore (50 + ((af.pitch - 150) / 100 + (af.tempo - 120) / 80) * 25)
      else 50
    let hesitation0 : ℤ :=
      if truthyM audioData then clampScore (af.zeroCrossingRate * 100) else 50
    let confidence0 : ℤ :=
      if truthyM audioData then clampScore (70 + af.volume * 30) else 80
    let t := transcript.getD ""
    let emotionalScore : ℤ :=
      if truthyS transcript then
        jsRound (((emotional0 : ℚ) + (clampScore (50 + (sentScore : ℚ) * 15) : ℚ)) / 2)
      else emotional0
    let stressScore : ℤ :=
      if truthyS transcript then
        jsRound (((stress0 : ℚ) +
          (clampScore (30 + (stressHitCount t : ℚ) * 10 + (hesitationHitCount t : ℚ) * 8) : ℚ)) / 2)
      else stress0
    let hesitationScore : ℤ :=
      if truthyS transcript then
        jsRound (((hesitation0 : ℚ) + (clampScore ((hesitationHitCount t : ℚ) * 15) : ℚ)) / 2)
      else hesitation0
    let confidence : ℤ :=
      if truthyS transcript then
        jsRound (((confidence0 : ℚ) + (clampScore (60 + min ((t.length : ℚ) / 20) 40) : ℚ)) / 2)
      else confidence0
    Except.ok
      { emotionalScore := emotionalScore
        stressScore := stressScore
        confidence := confidence
        pitchScore := pitchScore
        toneScore := toneScore
        tremorScore := tremorScore
        hesitationScore := hesitationScore
        interpretation := voiceInterp emotionalScore stressScore pitchScore }

/-- The JSON body `analyzeFacial` responds with (source lines 491–514;
the `features` echo object is omitted). -/
structure FacialResult where
  microExpressions : ℤ
  eyeMovement : ℤ
  smileSuppression : ℤ
  blinkingScore : ℤ
  headPoseStability : ℤ
  gazeStability : ℤ
  emotionalResponse : ℤ
  confidence : ℤ
  interpretation : String

/-- The interpretation template of source line 500 (it reads the raw,
pre-clamp `headPoseStability`). -/
def facialInterp (microExpressions eyeMovement : ℤ) (headPoseStabilityRaw : ℚ) : String :=
  "Facial analysis detected " ++
    (if microExpressions > 60 then ("significant") else ("minimal")) ++
  " micro-expressions with " ++
    (if eyeMovement > 60 then ("high") else ("normal")) ++
  " eye movement activity. Head pose stability: " ++
    (if headPoseStabilityRaw > 70 then ("good") else ("needs improvement")) ++ "."

/-- Source lines 463–521.  `extractVideoFeatures(videoData || imageData)`. -/
def analyzeFacial (videoData imageData : Option MediaData) : Except String FacialResult :=
  if !truthyM videoData && !truthyM imageData then
    Except.error ("Video or image data required")
  else
    let vf := extractVideoFeatures (jsOr videoData imageData)
    let microExpressions : ℤ := clampScore (vf.microExpressions * 100)
    let eyeMovement : ℤ := clampScore ((1 - vf.eyeAspectRatio) * 100)
    let smileSuppression : ℤ := clampScore ((1 - vf.smileIntensity) * 100)
    let blinkingScore : ℤ := clampScore (min (vf.blinkRate / 30) 1 * 100)
    let headPoseStability : ℚ :=
      100 - (|vf.headPosePitch| + |vf.headPoseYaw| + |vf.headPoseRoll|) * 2
    let gazeStability : ℚ :=
      100 - (|vf.gazeX - 0.5| + |vf.gazeY - 0.5|) * 200
    let emotionalResponse : ℤ :=
      clampScore (((microExpressions : ℚ) + (100 - (smileSuppression : ℚ)) +
        (100 - (eyeMovement : ℚ))) / 3)
    let confidence : ℤ :=
      clampScore (70 + (if vf.faceDetected then (20 : ℚ) else 0) +
        (if vf.microExpressions > 0.1 then (10 : ℚ) else 0))
    Except.ok
      { microExpressions := microExpressions
        eyeMovement := eyeMovement
        smileSuppression := smileSuppression
        blinkingScore := blinkingScore
        headPoseStability := clampScore headPoseStability
        gazeStability := clampScore gazeStability
        emotionalResponse := emotionalResponse
        confidence := confidence
        interpretation := facialInterp microExpressions eyeMovement headPoseStability }


/-- The JSON body `analyzeText` responds with (source lines 576–596; of the
`features` echo only the word-list hit counts and the word/sentence counts
are kept, the rest is needed by no claim). -/
structure TextResult where
  sentimentScore : ℤ
  consistencyScore : ℤ
  complexityScore : ℤ
  contradictionScore : ℤ
  deceptionScore : ℤ
  confidenceScore : ℤ
  confidence : ℤ
  interpretation : String
  wordCount : ℕ
  sentenceCount : ℕ
  contradictionIndicators : ℕ
  deceptionIndicators : ℕ
  confidenceIndicators : ℕ

/-- The interpretation template of source line 584. -/
def textInterp (sentimentScore consistencyScore deceptionScore : ℤ) : String :=
  "Text analysis shows " ++
    (if sentimentScore > 60 then ("positive")
     else if sentimentScore < 40 then ("negative") else ("neutral")) ++
  " sentiment with " ++
    (if consistencyScore > 70 then ("high") else ("moderate")) ++
  " consistency. Deception indicators: " ++
    (if deceptionScore > 70 then ("low") else ("moderate")) ++ "."

/-- Source lines 541–603.  The guard `!text || text.trim().length === 0`
holds exactly when the input has no non-whitespace character (this also
covers an absent input, via the empty default).  `sentScore` and `posGtNeg`
stand for `sentimentResult.score` and
`sentimentResult.positive > sentimentResult.negative` of the external
sentiment library. -/
def analyzeText (sentScore : ℤ) (posGtNeg : Bool) (text : Option String) :
    Except String TextResult :=
  if !((text.getD "").toList.any (fun c => !isWs c)) then
    Except.error ("Text content required")
  else
    let t := text.getD ""
    let sentimentScore : ℤ := clampScore (50 + (sentScore : ℚ) * 20)
    let words := tokensOf t
    let sentences := (jsSplit isSentenceSep t.toList).filter (fun s => s.any (fun c => !isWs c))
    let wc := words.length
    let sc := sentences.length
    -- JS: `avgWordsPerSentence = words.length / sentences.length`; when the
    -- sentence list is empty this is Infinity and
    -- `Math.min(Infinity * 8, 100) = 100`.
    let complexityScore : ℤ :=
      if sc = 0 then clampScore 100 else clampScore (min ((wc : ℚ) / (sc : ℚ) * 8) 100)
    let consistencyScore : ℤ := clampScore ((words.dedup.length : ℚ) / (wc : ℚ) * 100)
    let contradictionCount := countExactHits contradictionWordList words
    let contradictionScore : ℤ := clampScore (100 - (contradictionCount : ℚ) * 15)
    let deceptionCount := countExactHits deceptionWordList words
    let deceptionScore : ℤ := clampScore (100 - (deceptionCount : ℚ) * 10)
    let confidenceCount := countExactHits confidenceWordList words
    let confidenceScore : ℤ := clampScore (60 + (confidenceCount : ℚ) * 8)
    let confidence : ℤ :=
      clampScore (70 + min ((t.length : ℚ) / 100) 30 + (if posGtNeg then (10 : ℚ) else 0))
    Except.ok
      { sentimentScore := sentimentScore
        consistencyScore := consistencyScore
        complexityScore := complexityScore
        contradictionScore := contradictionScore
        deceptionScore := deceptionScore
        confidenceScore := confidenceScore
        confidence := confidence
        interpretation := textInterp sentimentScore consistencyScore deceptionScore
        wordCount := wc
        sentenceCount := sc
        contradictionIndicators := contradictionCount
        deceptionIndicators := deceptionCount
        confidenceIndicators := confidenceCount }

/-- The fusion loop of source lines 680–683:
`for (i = 0; i < Math.min(features.length, weights.length); i++)
   truthfulness += features[i] * weights[i]`. -/
def dotMin : List ℚ → List ℚ → ℚ
  | f :: fs, w :: ws => f * w + dotMin fs ws
  | _, _ => 0

/-- The JSON body `computeTruthScore` responds with (source lines 731–761;
of the `features` echo the `featureVector` and `weights` arrays are kept,
the per-modality breakdown echo is needed by no claim). -/
structure FusedResult where
  truthfulness : ℤ
  confidence : ℤ
  interpretation : String
  featureVector : List ℚ
  weights : List ℚ

/-- The interpretation bands of source lines 718–729. -/
def fusionInterp (truthfulness : ℤ) : String :=
  if truthfulness > 80 then
    ("High truthfulness indicators detected across all analysis dimensions. Strong consistency in voice, facial, and text patterns.")
  else if truthfulness > 65 then
    ("Moderate to high truthfulness with some minor inconsistencies noted. Overall patterns suggest genuine responses.")
  else if truthfulness > 45 then
    ("Mixed signals detected with moderate truthfulness indicators. Some inconsistencies may warrant further investigation.")
  else if truthfulness > 25 then
    ("Low truthfulness indicators detected. Multiple analysis dimensions show potential deception signals.")
  else
    ("Very low truthfulness indicators across multiple analysis dimensions. Strong deception signals detected.")

/-- Source lines 627–768.  Feature and weight vectors are assembled from the
present analyses in voice–facial–text order; the text block's fifth feature
is `textAnalysis.confidence / 100` (the overall confidence field, source
line 670). -/
def computeTruthScore (voiceAnalysis : Option VoiceResult)
    (facialAnalysis : Option FacialResult) (textAnalysis : Option TextResult)
    (transcript : Option String) : Except String FusedResult :=
  if voiceAnalysis.isNone && facialAnalysis.isNone && textAnalysis.isNone then
    Except.error ("At least one analysis result required")
  else
    let features : List ℚ :=
      (match voiceAnalysis with
       | some v =>
         [(v.emotionalScore : ℚ) / 100, (v.stressScore : ℚ) / 100,
          (v.confidence : ℚ) / 100, (v.pitchScore : ℚ) / 100,
          (v.toneScore : ℚ) / 100, (v.tremorScore : ℚ) / 100,
          (v.hesitationScore : ℚ) / 100]
       | none => []) ++
      (match facialAnalysis with
       | some f =>
         [(f.microExpressions : ℚ) / 100, (f.eyeMovement : ℚ) / 100,
          (f.emotionalResponse : ℚ) / 100, (f.confidence : ℚ) / 100,
          (f.headPoseStability : ℚ) / 100, (f.gazeStability : ℚ) / 100]
       | none => []) ++
      (match textAnalysis with
       | some tx =>
         [(tx.sentimentScore : ℚ) / 100, (tx.consistencyScore : ℚ) / 100,
          (tx.contradictionScore : ℚ) / 100, (tx.deceptionScore : ℚ) / 100,
          (tx.confidence : ℚ) / 100]
       | none => [])
    let weightsRaw : List ℚ :=
      (match voiceAnalysis with
       | some _ => [0.15, 0.12, 0.08, 0.10, 0.10, 0.08, 0.07]
       | none => []) ++
      (match facialAnalysis with
       | some _ => [0.12, 0.10, 0.08, 0.06, 0.05, 0.05]
       | none => []) ++
      (match textAnalysis with
       | some _ => [0.08, 0.06, 0.05, 0.05, 0.03]
       | none => [])
    let totalWeight := sumQ weightsRaw
    let weights := weightsRaw.map (fun w => w / totalWeight)
    let rawTruth := dotMin features weights
    let truthfulness : ℤ :=
      if truthyS transcript then
        let t := transcript.getD ""
        let lengthFactor : ℚ := min ((t.length : ℚ) / 200) 1
        let blended : ℚ := rawTruth * 0.8 + lengthFactor * 0.2
        let words := tokensOf t
        let truthCount := countSubstrHits truthWordList words
        let lieCount := countSubstrHits lieWordList words
        let truthIndicator : ℚ :=
          ((truthCount : ℚ) - (lieCount : ℚ)) / max (words.length : ℚ) 1
        clampScore (blended * 100 + truthIndicator * 15)
      else clampScore (rawTruth * 100)
    let availableAnalyses : ℕ :=
      (if voiceAnalysis.isSome then 1 else 0) +
      (if facialAnalysis.isSome then 1 else 0) +
      (if textAnalysis.isSome then 1 else 0)
    let baseConfidence : ℚ := 50 + (availableAnalyses : ℚ) * 15
    let avgConfidence : ℚ :=
      (match voiceAnalysis with | some v => (v.confidence : ℚ) | none => 0) +
      (match facialAnalysis with | some f => (f.confidence : ℚ) | none => 0) +
      (match textAnalysis with | some tx => (tx.confidence : ℚ) | none => 0)
    let finalConfidence : ℤ :=
      if availableAnalyses > 0 then
        clampScore ((baseConfidence + avgConfidence / (availableAnalyses : ℚ)) / 2)
      else clampScore baseConfidence
    Except.ok
      { truthfulness := truthfulness
        confidence := finalConfidence
        interpretation := fusionInterp truthfulness
        featureVector := features
        weights := weights }

/-- The settled state of a promise obtained by calling one of the handlers
with the stub response object `{ json: (v) => v }` of source lines 802–805
and 815: `fulfilled v` models a resolved promise (with `v = none` standing
for a resolved value of `undefined`), `rejected` a rejected one. -/
inductive StubOutcome (α : Type) where
  | fulfilled (v : Option α)
  | rejected

/-- `analyses[i].status === 'fulfilled' ? analyses[i].value : null` (source
lines 809–811): a rejected branch is recorded as `null`, a fulfilled one by
its resolved value — so both sides are falsy whenever the value is
`undefined`. -/
def settledValue {α : Type} : StubOutcome α → Option α
  | .fulfilled v => v
  | .rejected => none

/-- `analyzeVoice({body}, {json: (v) => v})` as called at source line 803.
On the missing-input path the handler runs `res.status(400)` — but the stub
has no `status` member, so a TypeError is thrown, and the catch block's own
`res.status(500)` throws again, rejecting the promise.  On the success path
the handler evaluates `res.json(result)` (whose value is discarded: line 437
has no `return`) and resolves with `undefined`. -/
def voiceStubCall (sentScore : ℤ) (audioData : Option MediaData)
    (transcript : Option String) : StubOutcome VoiceResult :=
  match analyzeVoice sentScore audioData transcript with
  | .error _ => .rejected
  | .ok _ => .fulfilled none

/-- `analyzeFacial({body}, {json: (v) => v})` (source line 804); same stub
semantics as `voiceStubCall` (no `return` at line 516). -/
def facialStubCall (videoData imageData : Option MediaData) : StubOutcome FacialResult :=
  match analyzeFacial videoData imageData with
  | .error _ => .rejected
  | .ok _ => .fulfilled none

/-- `analyzeText({body: {text: transcript}}, {json: (v) => v})` (source line
805); same stub semantics (no `return` at line 598). -/
def textStubCall (sentScore : ℤ) (posGtNeg : Bool) (transcript : Option String) :
    StubOutcome TextResult :=
  match analyzeText sentScore posGtNeg transcript with
  | .error _ => .rejected
  | .ok _ => .fulfilled none

/-- `computeTruthScore({body: {...}}, {json: (v) => v})` (source line 815);
same stub semantics (no `return` at line 763). -/
def truthStubCall (v : Option VoiceResult) (f : Option FacialResult)
    (t : Option TextResult) (transcript : Option String) : StubOutcome FusedResult :=
  match computeTruthScore v f t transcript with
  | .error _ => .rejected
  | .ok _ => .fulfilled none

/-- The JSON body `analyzeAll` responds with (source lines 808–820). -/
structure CombinedResult where
  voice : Option VoiceResult
  facial : Option FacialResult
  text : Option TextResult
  truth : Option FusedResult

/-- Source lines 796–825: the combined endpoint.  The three handlers are run
with the stub response object and collected with `Promise.allSettled`; the
recorded per-modality values are then fed to `computeTruthScore` through the
same stub.  An exception from the awaited truth computation reaches the
outer catch, which responds 500 `Combined analysis failed` through the real
response object. -/
def analyzeAll (sentScore : ℤ) (posGtNeg : Bool)
    (audioData videoData imageData : Option MediaData)
    (transcript : Option String) : Except String CombinedResult :=
  let voiceOut := settledValue (voiceStubCall sentScore audioData transcript)
  let facialOut := settledValue (facialStubCall videoData imageData)
  let textOut := settledValue (textStubCall sentScore posGtNeg transcript)
  match truthStubCall voiceOut facialOut textOut transcript with
  | .rejected => Except.error ("Combined analysis failed")
  | .fulfilled tv =>
    Except.ok { voice := voiceOut, facial := facialOut, text := textOut, truth := tv }

/-- Lifts a property over the success value of an embedded handler call:
trivially true on the error branch.  Used to state "whenever the call
succeeds, its result satisfies P". -/
def ExceptOkPred {ε α : Type} (e : Except ε α) (P : α → Prop) : Prop :=
  match e with
  | .ok a => P a
  | .error _ => True

/-- `0 ≤ n ≤ 100`: the documented range of every emitted score. -/
def okScore (n : ℤ) : Prop := 0 ≤ n ∧ n ≤ 100

/-! ### Range lemmas for the clamped integer scores -/

theorem jsRound_eq_floor (x : ℚ) : jsRound x = ⌊x + 1/2⌋ := by
  unfold jsRound
  rw [Rat.floor_def', ← Rat.floor_def]

theorem jsRound_lb (x : ℚ) (h0 : 0 ≤ x) : 0 ≤ jsRound x := by
  rw [jsRound_eq_floor]
  exact Int.le_floor.mpr (by push_cast; linarith)

theorem jsRound_ub (x : ℚ) (h1 : x ≤ 100) : jsRound x ≤ 100 := by
  rw [jsRound_eq_floor]
  have h2 : (⌊x + 1/2⌋ : ℚ) < 101 := lt_of_le_of_lt (Int.floor_le _) (by linarith)
  have h3 : (⌊x + 1/2⌋ : ℤ) < 101 := by exact_mod_cast h2
  omega

theorem clampScore_okScore (x : ℚ) : okScore (clampScore x) := by
  unfold okScore clampScore
  omega

theorem okScore_ite (c : Prop) [Decidable c] {m n : ℤ} (hm : okScore m) (hn : okScore n) :
    okScore (if c then m else n) := by
  split
  · exact hm
  · exact hn

theorem okScore_fifty : okScore 50 := ⟨by norm_num, by norm_num⟩

theorem okScore_eighty : okScore 80 := ⟨by norm_num, by norm_num⟩

theorem avg_okScore (a b : ℤ) (ha : okScore a) (hb : okScore b) :
    okScore (jsRound (((a : ℚ) + (b : ℚ)) / 2)) := by
  obtain ⟨ha0, ha1⟩ := ha
  obtain ⟨hb0, hb1⟩ := hb
  have ha0' : (0 : ℚ) ≤ (a : ℚ) := by exact_mod_cast ha0
  have ha1' : (a : ℚ) ≤ 100 := by exact_mod_cast ha1
  have hb0' : (0 : ℚ) ≤ (b : ℚ) := by exact_mod_cast hb0
  have hb1' : (b : ℚ) ≤ 100 := by exact_mod_cast hb1
  exact ⟨jsRound_lb _ (by linarith), jsRound_ub _ (by linarith)⟩

/-- Claim C5: every numeric score emitted by the voice, facial, text and
fusion operations — all sub-scores, the confidences and the fused
truthfulness — is an integer in [0, 100], for every input in the domain
(integrality is by construction: every emitted score has type ℤ, produced by
`Math.round`). -/
theorem scores_are_clamped_integers :
    (∀ sentScore audioData transcript,
      ExceptOkPred (analyzeVoice sentScore audioData transcript) (fun r =>
        okScore r.emotionalScore ∧ okScore r.stressScore ∧ okScore r.confidence ∧
        okScore r.pitchScore ∧ okScore r.toneScore ∧ okScore r.tremorScore ∧
        okScore r.hesitationScore)) ∧
    (∀ videoData imageData,
      ExceptOkPred (analyzeFacial videoData imageData) (fun r =>
        okScore r.microExpressions ∧ okScore r.eyeMovement ∧ okScore r.smileSuppression ∧
        okScore r.blinkingScore ∧ okScore r.headPoseStability ∧ okScore r.gazeStability ∧
        okScore r.emotionalResponse ∧ okScore r.confidence)) ∧
    (∀ sentScore posGtNeg text,
      ExceptOkPred (analyzeText sentScore posGtNeg text) (fun r =>
        okScore r.sentimentScore ∧ okScore r.consistencyScore ∧ okScore r.complexityScore ∧
        okScore r.contradictionScore ∧ okScore r.deceptionScore ∧
        okScore r.confidenceScore ∧ okScore r.confidence)) ∧
    (∀ v f t tr,
      ExceptOkPred (computeTruthScore v f t tr) (fun r =>
        okScore r.truthfulness ∧ okScore r.confidence)) := by
  refine ⟨?_, ?_, ?_, ?_⟩
  · intro sentScore audioData transcript
    unfold analyzeVoice
    split
    · trivial
    · simp only [ExceptOkPred]
      exact ⟨okScore_ite _
          (avg_okScore _ _ (okScore_ite _ (clampScore_okScore _) okScore_fifty)
            (clampScore_okScore _))
          (okScore_ite _ (clampScore_okScore _) okScore_fifty),
        okScore_ite _
          (avg_okScore _ _ (okScore_ite _ (clampScore_okScore _) okScore_fifty)
            (clampScore_okScore _))
          (okScore_ite _ (clampScore_okScore _) okScore_fifty),
        okScore_ite _
          (avg_okScore _ _ (okScore_ite _ (clampScore_okScore _) okScore_eighty)
            (clampScore_okScore _))
          (okScore_ite _ (clampScore_okScore _) okScore_eighty),
        okScore_ite _ (clampScore_okScore _) okScore_fifty,
        okScore_ite _ (clampScore_okScore _) okScore_fifty,
        okScore_ite _ (clampScore_okScore _) okScore_fifty,
        okScore_ite _
          (avg_okScore _ _ (okScore_ite _ (clampScore_okScore _) okScore_fifty)
            (clampScore_okScore _))
          (okScore_ite _ (clampScore_okScore _) okScore_fifty)⟩
  · intro videoData imageData
    unfold analyzeFacial
    split
    · trivial
    · simp only [ExceptOkPred]
      refine ⟨?_, ?_, ?_, ?_, ?_, ?_, ?_, ?_⟩ <;> exact clampScore_okScore _
  · intro sentScore posGtNeg text
    unfold analyzeText
    split
    · trivial
    · simp only [ExceptOkPred]
      exact ⟨clampScore_okScore _, clampScore_okScore _,
        okScore_ite _ (clampScore_okScore _) (clampScore_okScore _),
        clampScore_okScore _, clampScore_okScore _, clampScore_okScore _,
        clampScore_okScore _⟩
  · intro v f t tr
    unfold computeTruthScore
    split
    · trivial
    · simp only [ExceptOkPred]
      exact ⟨okScore_ite _ (clampScore_okScore _) (clampScore_okScore _),
        okScore_ite _ (clampScore_okScore _) (clampScore_okScore _)⟩

theorem sumQ_foldl_shift (l : List ℚ) : ∀ x : ℚ, l.foldl (· + ·) x = x + l.foldl (· + ·) 0 := by
  induction l with
  | nil => intro x; simp
  | cons b bs ih => intro x; simp only [List.foldl_cons]; rw [ih (x + b), ih (0 + b)]; ring

theorem sumQ_cons (a : ℚ) (l : List ℚ) : sumQ (a :: l) = a + sumQ l := by
  unfold sumQ
  simp only [List.foldl_cons]
  rw [sumQ_foldl_shift, zero_add]

/-- Dividing every entry by `c` divides the sum by `c` — the algebraic core
of the weight normalization at source line 677. -/
theorem sumQ_map_div (l : List ℚ) (c : ℚ) :
    sumQ (l.map (fun w => w / c)) = sumQ l / c := by
  induction l with
  | nil => simp [sumQ]
  | cons a as ih =>
    simp only [List.map_cons, sumQ_cons, ih]
    rw [add_div]

/-- Claim C4: for every call to `fuse` that succeeds (i.e. with 1, 2 or 3
modalities present), the weight vector of the returned `FusedResult` sums to
exactly 1 after normalization (rational arithmetic is exact, so no epsilon
is needed). -/
theorem fusion_weights_sum_to_one (v : Option VoiceResult) (f : Option FacialResult)
    (t : Option TextResult) (tr : Option String) :
    ExceptOkPred (computeTruthScore v f t tr) (fun r => sumQ r.weights = 1) := by
  unfold computeTruthScore
  split
  · trivial
  · rename_i hg
    simp only [ExceptOkPred]
    rcases v with _ | v <;> rcases f with _ | f <;> rcases t with _ | t <;>
      first
      | exact absurd rfl hg
      | (simp only [List.cons_append, List.nil_append, List.append_nil]
         rw [sumQ_map_div]
         exact div_self (by decide))

/-- `extractVideoFeatures` sets `faceDetected := true` in both of its
branches. -/
theorem extractVideoFeatures_faceDetected (d : Option MediaData) :
    (extractVideoFeatures d).faceDetected = true := by
  rcases d with _ | s | n <;> rfl

/-- The facial confidence formula of source line 488 is at least 90 whenever
the face is detected. -/
theorem facial_confidence_floor (vf : VideoFeatures) (h : vf.faceDetected = true) :
    (90 : ℤ) ≤ clampScore (70 + (if vf.faceDetected = true then (20 : ℚ) else 0) +
      (if vf.microExpressions > 0.1 then (10 : ℚ) else 0)) := by
  rw [if_pos h]
  split
  · decide
  · decide

/-- Claim C10: every `VideoFeatures` record the extractor produces (default
branch and complexity branch alike) has `faceDetected = true`, and therefore
every successful `analyzeFacial` call reports a confidence of at least 90
(base 70 plus the unconditional 20-point face-detected bonus). -/
theorem faceDetected_always_confidence_at_least_90 :
    (∀ d, (extractVideoFeatures d).faceDetected = true) ∧
    (∀ videoData imageData,
      ExceptOkPred (analyzeFacial videoData imageData) (fun r => 90 ≤ r.confidence)) := by
  constructor
  · exact extractVideoFeatures_faceDetected
  · intro videoData imageData
    unfold analyzeFacial
    split
    · trivial
    · simp only [ExceptOkPred]
      exact facial_confidence_floor _ (extractVideoFeatures_faceDetected _)

/-- Claim C9: a string input of any length or content makes both feature
extractors return exactly the same fixed default record as an absent input;
the length-derived complexity interpolation runs only for a non-string,
non-absent blob (and `length || 1000` maps an empty blob to length 1000). -/
theorem string_input_gets_default_features :
    (∀ s, extractAudioFeatures (some (.str s)) = extractAudioFeatures none) ∧
    (∀ s, extractVideoFeatures (some (.str s)) = extractVideoFeatures none) ∧
    (∀ n : ℕ,
      let c : ℚ := min ((if n = 0 then (1000 : ℚ) else (n : ℚ)) / 10000) 1
      extractAudioFeatures (some (.buf n)) =
        { pitch := 120 + c * 100
          volume := 0.3 + c * 0.4
          tempo := 80 + c * 80
          spectralCentroid := 800 + c * 1200
          zeroCrossingRate := 0.05 + c * 0.1
          mfcc := List.replicate 13 (0.2 * c)
          spectralRolloff := 1500 + c * 2000
          spectralBandwidth := 300 + c * 400 }) ∧
    (∀ n : ℕ,
      let c : ℚ := min ((if n = 0 then (1000 : ℚ) else (n : ℚ)) / 5000) 1
      extractVideoFeatures (some (.buf n)) =
        { faceDetected := true
          eyeAspectRatio := 0.2 + c * 0.1
          mouthAspectRatio := 0.1 + c * 0.1
          headPosePitch := 0.1 * c
          headPoseYaw := 0.1 * c
          headPoseRoll := 0.1 * c
          microExpressions := c * 0.3
          blinkRate := 15 + c * 20
          smileIntensity := c * 0.5
          gazeX := 0.5
          gazeY := 0.5 }) :=
  ⟨fun _ => rfl, fun _ => rfl, fun _ => rfl, fun _ => rfl⟩

/-- Claim C8: `analyzeVoice` rejects with `Audio data or transcript required`
exactly when both inputs are absent (JS-falsy: `undefined`/`null` or the
empty string — §7 of the spec calls this "no usable input"), and
`analyzeFacial` rejects with `Video or image data required` exactly when
both of its inputs are absent; whenever at least one input is usable, the
call returns a fully populated `ModalityScore` (the success value is a
total record — every sub-score, the confidence and the interpretation are
always set). -/
theorem missing_input_exactly_when_both_absent (sentScore : ℤ)
    (a : Option MediaData) (t : Option String) (v i : Option MediaData) :
    ((∃ r, analyzeVoice sentScore a t = Except.ok r) ↔ (truthyM a || truthyS t) = true) ∧
    ((analyzeVoice sentScore a t = Except.error ("Audio data or transcript required")) ↔
      (truthyM a || truthyS t) = false) ∧
    ((∃ r, analyzeFacial v i = Except.ok r) ↔ (truthyM v || truthyM i) = true) ∧
    ((analyzeFacial v i = Except.error ("Video or image data required")) ↔
      (truthyM v || truthyM i) = false) := by
  refine ⟨?_, ?_, ?_, ?_⟩
  · unfold analyzeVoice
    cases hA : truthyM a <;> cases hT : truthyS t <;> simp
  · unfold analyzeVoice
    cases hA : truthyM a <;> cases hT : truthyS t <;> simp
  · unfold analyzeFacial
    cases hV : truthyM v <;> cases hI : truthyM i <;> simp
  · unfold analyzeFacial
    cases hV : truthyM v <;> cases hI : truthyM i <;> simp

/-- `dotMin l [] = 0` (the fusion loop runs to the shorter length). -/
theorem dotMin_nil_right (l : List ℚ) : dotMin l [] = 0 := by
  cases l <;> rfl

/-- Claim C6: the pre-clamp weighted dot product of `computeTruthScore` is
monotone — for a fixed non-negative weight vector, raising one feature entry
(leaving the others and the weights fixed) never decreases the weighted
sum. -/
theorem fusion_dot_product_monotone (f w : List ℚ) (i : ℕ) (x y : ℚ)
    (hw : ∀ q ∈ w, 0 ≤ q) (hy : f.get? i = some y) (hxy : y ≤ x) :
    dotMin f w ≤ dotMin (f.set i x) w := by
  induction f generalizing w i with
  | nil => simp at hy
  | cons a as ih =>
    cases w with
    | nil => rw [dotMin_nil_right, dotMin_nil_right]
    | cons b bs =>
      cases i with
      | zero =>
        have ha : a = y := by simpa using hy
        subst ha
        have e1 : dotMin (a :: as) (b :: bs) = a * b + dotMin as bs := rfl
        have e2 : dotMin ((a :: as).set 0 x) (b :: bs) = x * b + dotMin as bs := rfl
        rw [e1, e2]
        have hb : 0 ≤ b := hw b (List.mem_cons_self b bs)
        have hab : a * b ≤ x * b := mul_le_mul_of_nonneg_right hxy hb
        linarith
      | succ n =>
        have hy' : as.get? n = some y := by simpa using hy
        have e1 : dotMin (a :: as) (b :: bs) = a * b + dotMin as bs := rfl
        have e2 : dotMin ((a :: as).set (n + 1) x) (b :: bs) =
            a * b + dotMin (as.set n x) bs := rfl
        rw [e1, e2]
        have hrec := ih bs n (fun q hq => hw q (List.mem_cons_of_mem b hq)) hy'
        linarith

/-- Witness for C6 at a concrete instance: feature 0.5 raised to 1 under the
(non-negative) text sentiment weight 0.08. -/
theorem fusion_dot_product_monotone_witness :
    (∀ q ∈ [(0.08 : ℚ)], 0 ≤ q) ∧ [(0.5 : ℚ)].get? 0 = some 0.5 ∧ (0.5 : ℚ) ≤ 1 ∧
    dotMin [(0.5 : ℚ)] [(0.08 : ℚ)] ≤ dotMin ([(0.5 : ℚ)].set 0 1) [(0.08 : ℚ)] :=
  ⟨by norm_num, rfl, by norm_num,
    fusion_dot_product_monotone [(0.5 : ℚ)] [(0.08 : ℚ)] 0 1 0.5 (by norm_num) rfl (by norm_num)⟩

/-- Claim C7: the deliberate matching asymmetry of the word-list counting.
The stress and hesitation lists (used by `analyzeVoice` through
`stressHitCount` / `hesitationHitCount`) are matched by substring
containment per lowercase token, so a token that merely *contains* a listed
word is a hit; the contradiction, deception and confidence lists (used by
`analyzeText` through `countExactHits`) are matched by exact token
membership, so a token not equal to any listed word contributes nothing,
even if it contains one as a substring. -/
theorem wordlist_matching_asymmetry (w : List Char) (ws : List (List Char)) :
    (stressWordList.any (fun p => containsSub p w) = true →
      countSubstrHits stressWordList (w :: ws) = countSubstrHits stressWordList ws + 1) ∧
    (hesitationWordList.any (fun p => containsSub p w) = true →
      countSubstrHits hesitationWordList (w :: ws) = countSubstrHits hesitationWordList ws + 1) ∧
    (contradictionWordList.contains w = false →
      countExactHits contradictionWordList (w :: ws) = countExactHits contradictionWordList ws) ∧
    (deceptionWordList.contains w = false →
      countExactHits deceptionWordList (w :: ws) = countExactHits deceptionWordList ws) ∧
    (confidenceWordList.contains w = false →
      countExactHits confidenceWordList (w :: ws) = countExactHits confidenceWordList ws) := by
  have exact_case : ∀ pats : List (List Char), pats.contains w = false →
      countExactHits pats (w :: ws) = countExactHits pats ws := by
    intro pats h
    have h' : w ∉ pats := by simpa using h
    simp [countExactHits, List.filter_cons, h']
  refine ⟨?_, ?_, exact_case _, exact_case _, exact_case _⟩ <;> intro h <;>
    simp [countSubstrHits, List.filter_cons, h]

/-- Witness for C7 at the concrete token `butumstressed`: it contains the
stress word `stressed` and the hesitation word `um` as substrings (two
hits), and it contains the contradiction word `but` without being equal to
any listed word (zero hits on the three exact-membership lists). -/
theorem wordlist_matching_asymmetry_witness :
    stressWordList.any (fun p => containsSub p ("butumstressed").toList) = true ∧
    hesitationWordList.any (fun p => containsSub p ("butumstressed").toList) = true ∧
    contradictionWordList.any (fun p => containsSub p ("butumstressed").toList) = true ∧
    contradictionWordList.contains ("butumstressed").toList = false ∧
    deceptionWordList.contains ("butumstressed").toList = false ∧
    confidenceWordList.contains ("butumstressed").toList = false ∧
    countSubstrHits stressWordList [("butumstressed").toList] = 1 ∧
    countSubstrHits hesitationWordList [("butumstressed").toList] = 1 ∧
    countExactHits contradictionWordList [("butumstressed").toList] = 0 ∧
    countExactHits deceptionWordList [("butumstressed").toList] = 0 ∧
    countExactHits confidenceWordList [("butumstressed").toList] = 0 :=
  ⟨by decide, by decide, by decide, by decide, by decide, by decide,
    ((wordlist_matching_asymmetry ("butumstressed").toList []).1 (by decide)).trans (by decide),
    ((wordlist_matching_asymmetry ("butumstressed").toList []).2.1 (by decide)).trans (by decide),
    ((wordlist_matching_asymmetry ("butumstressed").toList []).2.2.1 (by decide)).trans (by decide),
    ((wordlist_matching_asymmetry ("butumstressed").toList []).2.2.2.1 (by decide)).trans (by decide),
    ((wordlist_matching_asymmetry ("butumstressed").toList []).2.2.2.2 (by decide)).trans (by decide)⟩

/-- Counterexample to C1: the code's fifth text fusion feature is the
modality's overall `confidence` field (source line 670), not the
`confidenceWords` sub-score.  A text `ModalityScore` with the claim's five
values (sentiment 80, consistency 100, contradiction 100, deception 100,
confidenceWords 60) but overall confidence 100 fuses to truthfulness 94,
not the claimed 90 — the claimed hand-computation only comes out when the
*confidence* field is 60. -/
theorem fuse_text_scenario_counterexample :
    Except.map FusedResult.truthfulness (computeTruthScore none none
      (some { sentimentScore := 80, consistencyScore := 100, complexityScore := 50,
              contradictionScore := 100, deceptionScore := 100, confidenceScore := 60,
              confidence := 100, interpretation := "", wordCount := 0, sentenceCount := 0,
              contradictionIndicators := 0, deceptionIndicators := 0,
              confidenceIndicators := 0 })
      none) = Except.ok 94 ∧ (94 : ℤ) ≠ 90 :=
  ⟨by rfl, by decide⟩

/-- Claim C1 as amended: for a `fuse` call with only a text `ModalityScore`
present and no transcript, where the text score has sentiment 80,
consistency 100, contradiction 100, deception 100 and overall
**confidence** 60 (the field the code actually fuses; the `confidenceWords`
sub-score — kept at the claim's 60 — and `complexity` are ignored by
fusion), the feature vector is [0.8, 1, 1, 1, 0.6], the weights are the
five text weights normalized by 0.27, and the returned truthfulness is
exactly round(0.242/0.27 × 100) = 90. -/
theorem fuse_text_only_reference_value :
    Except.map (fun r => (r.truthfulness, r.featureVector, r.weights))
      (computeTruthScore none none
        (some { sentimentScore := 80, consistencyScore := 100, complexityScore := 50,
                contradictionScore := 100, deceptionScore := 100, confidenceScore := 60,
                confidence := 60, interpretation := "", wordCount := 0, sentenceCount := 0,
                contradictionIndicators := 0, deceptionIndicators := 0,
                confidenceIndicators := 0 })
        none) =
      Except.ok (90, [4/5, 1, 1, 1, 3/5], [8/27, 2/9, 5/27, 5/27, 1/9]) := by
  rfl

/-- Counterexample to C3: with audio absent (and any transcript), the
audio-derived sub-scores are *not* recomputed from the defaulted
`AudioFeatures` record — the `if (audioData)` guard at source line 373
skips those formulas, so `pitchScore` stays at its initializer 50 (not the
claimed clamp(min(150/255,1)×100) = 59) and `toneScore` stays at 50 (not
the claimed 100).  The sentiment parameter 3 is the AFINN polarity of
"I am happy"; the refuted values do not depend on it. -/
theorem voice_absent_audio_counterexample :
    Except.map (fun r => (r.pitchScore, r.toneScore))
      (analyzeVoice 3 none (some ("I am happy"))) = Except.ok (50, 50) ∧
    ((50 : ℤ), (50 : ℤ)) ≠ ((59 : ℤ), (100 : ℤ)) :=
  ⟨by rfl, by decide⟩

/-- Claim C3 as amended: `scoreVoice` with audio absent and a non-empty
transcript succeeds, but the audio-derived base sub-scores keep their
initializer values (pitch 50, tone 50, tremor 50) instead of being computed
from the defaulted `AudioFeatures`; the transcript-derived adjustments are
then applied on top of the initial values (emotional, stress, hesitation
and confidence are each averaged with their transcript-derived text
scores). -/
theorem voice_absent_audio_keeps_initial_scores (sentScore : ℤ) (t : String)
    (h : t.isEmpty = false) :
    Except.map (fun r => (r.pitchScore, r.toneScore, r.tremorScore, r.emotionalScore,
        r.stressScore, r.hesitationScore, r.confidence))
      (analyzeVoice sentScore none (some t)) =
    Except.ok (50, 50, 50,
      jsRound ((50 + (clampScore (50 + (sentScore : ℚ) * 15) : ℚ)) / 2),
      jsRound ((50 + (clampScore (30 + (stressHitCount t : ℚ) * 10 +
        (hesitationHitCount t : ℚ) * 8) : ℚ)) / 2),
      jsRound ((50 + (clampScore ((hesitationHitCount t : ℚ) * 15) : ℚ)) / 2),
      jsRound ((80 + (clampScore (60 + min ((t.length : ℚ) / 20) 40) : ℚ)) / 2)) := by
  have hT : truthyS (some t) = true := by simp [truthyS, h]
  simp [analyzeVoice, truthyM, hT, Except.map]

/-- Witness for the amended C3 at the concrete call
`analyzeVoice 3 none (some "I am happy")`. -/
theorem voice_absent_audio_keeps_initial_scores_witness :
    ("I am happy").isEmpty = false ∧
    Except.map (fun r => (r.pitchScore, r.toneScore, r.tremorScore, r.emotionalScore,
        r.stressScore, r.hesitationScore, r.confidence))
      (analyzeVoice 3 none (some ("I am happy"))) =
    Except.ok (50, 50, 50,
      jsRound ((50 + (clampScore (50 + ((3 : ℤ) : ℚ) * 15) : ℚ)) / 2),
      jsRound ((50 + (clampScore (30 + (stressHitCount ("I am happy") : ℚ) * 10 +
        (hesitationHitCount ("I am happy") : ℚ) * 8) : ℚ)) / 2),
      jsRound ((50 + (clampScore ((hesitationHitCount ("I am happy") : ℚ) * 15) : ℚ)) / 2),
      jsRound ((80 + (clampScore (60 + min ((("I am happy").length : ℚ) / 20) 40) : ℚ)) / 2)) :=
  ⟨by decide, voice_absent_audio_keeps_initial_scores 3 ("I am happy") (by decide)⟩

/-- Claim C2 (code bug): the combined `analyzeAll` endpoint responds
500 `Combined analysis failed` for **every** input.  The inner handlers are
invoked with the stub response `{json: (v) => v}`: on success they call
`res.json(result)` but never `return` it, so their promises resolve with
`undefined`, and on failure `res.status` (absent from the stub) throws.
Hence the recorded per-modality values are always `undefined`/`null`, the
fused call sees zero analyses, its own `res.status(400)` throws through the
stub, and the outer catch responds 500 — no ModalityScore ever reaches the
fusion step, contrary to the documented intent of collecting each outcome
and fusing the successful ones. -/
theorem analyzeAll_always_responds_500 (sentScore : ℤ) (posGtNeg : Bool)
    (audioData videoData imageData : Option MediaData) (transcript : Option String) :
    analyzeAll sentScore posGtNeg audioData videoData imageData transcript =
      Except.error ("Combined analysis failed") := by
  have hv : settledValue (voiceStubCall sentScore audioData transcript) = none := by
    unfold voiceStubCall
    cases analyzeVoice sentScore audioData transcript <;> rfl
  have hf : settledValue (facialStubCall videoData imageData) = none := by
    unfold facialStubCall
    cases analyzeFacial videoData imageData <;> rfl
  have ht : settledValue (textStubCall sentScore posGtNeg transcript) = none := by
    unfold textStubCall
    cases analyzeText sentScore posGtNeg transcript <;> rfl
  unfold analyzeAll
  rw [hv, hf, ht]
  rfl

/-! ### Concrete sanity runs of the embedded handlers (non-vacuity of the
`ExceptOkPred` statements above, and the spec §8 text scenario). -/

theorem sanity_voice_success_with_audio :
    Except.map (fun r => (r.emotionalScore, r.stressScore, r.confidence, r.pitchScore,
        r.toneScore, r.tremorScore, r.hesitationScore))
      (analyzeVoice 0 (some (.buf 5000)) none) =
      Except.ok (55, 31, 85, 67, 100, 60, 10) := by
  rfl

theorem sanity_text_truth_sentence :
    Except.map (fun r => (r.consistencyScore, r.contradictionScore, r.deceptionScore,
        r.wordCount, r.sentenceCount))
      (analyzeText 0 true (some ("I am telling the truth."))) =
      Except.ok (100, 100, 100, 5, 1) := by
  rfl

theorem sanity_facial_image_only :
    Except.map FacialResult.confidence (analyzeFacial none (some (.str ("img")))) =
      Except.ok 90 := by
  rfl
